import Mathlib

/-!
A shallow embedding of the buffer-pool core of the repository
(`src/buffer/lru_replacer.cpp`, `src/buffer/lru_k_replacer.cpp`,
`src/buffer/buffer_pool_manager.cpp`, `src/storage/page/page_guard.cpp`),
together with theorems settling the frozen claims about it.

Conventions of the embedding:
* `size_t` counters are modelled as `Nat` values kept below `2 ^ 64`; the
  increments and decrements of the source are modelled with explicit
  wrap-around (`incU` / `decU`), and sums of two counters are reduced
  `% 2 ^ 64` exactly where the source adds two `size_t` values.
* `page_id_t` (a C `int`) and `pin_count_` are modelled as `Int`.
* `std::unordered_map` is modelled as an association list with unique keys
  (`alistFind` / `alistInsert` / `alistErase`); `std::list` as `List Nat`.
* Code paths that throw `ExecutionException` or fail an `assert` return
  `none`; fallible operations therefore live in `Option`.
* Disk traffic is returned as an explicit trace of `DiskOp` events;
  `DiskManager::ReadPage` overwrites the whole page buffer, modelled by
  replacing the frame data with `disk page_id`.
-/

/-- 2 ^ 64, the modulus of the source's `size_t` arithmetic. -/
def u64 : Nat := 18446744073709551616

/-- `size_t` increment with wrap-around. -/
def incU (n : Nat) : Nat := (n + 1) % u64

/-- `size_t` decrement with wrap-around (assuming the input is below `2 ^ 64`). -/
def decU (n : Nat) : Nat := (n + (u64 - 1)) % u64

/-- Lookup in an association list, modelling `std::unordered_map::find`. -/
def alistFind {α β : Type} [DecidableEq α] : List (α × β) → α → Option β
  | [], _ => none
  | (k, v) :: rest, key => if k = key then some v else alistFind rest key

/-- Insert-or-replace, modelling `map[key] = value`. -/
def alistInsert {α β : Type} [DecidableEq α] : List (α × β) → α → β → List (α × β)
  | [], key, value => [(key, value)]
  | (k, v) :: rest, key, value =>
      if k = key then (key, value) :: rest else (k, v) :: alistInsert rest key value

/-- Remove the binding of a key, modelling `map.erase(it)`. -/
def alistErase {α β : Type} [DecidableEq α] : List (α × β) → α → List (α × β)
  | [], _ => []
  | (k, v) :: rest, key => if k = key then rest else (k, v) :: alistErase rest key

/-! ## LRUReplacer (`src/buffer/lru_replacer.cpp`)

State: `num_pages_` (capacity), `list_` (a `std::list<frame_id_t>`, head =
least recently used), and the counter `cur_size_`. -/

structure LRUReplacer where
  num_pages : Nat
  list : List Nat
  cur_size : Nat
  deriving DecidableEq, Repr

/-- Fresh `LRUReplacer` with the given capacity (constructor of the source). -/
def newLRUReplacer (n : Nat) : LRUReplacer := { num_pages := n, list := [], cur_size := 0 }

namespace LRUReplacer

/-- `LRUReplacer::Victim`: pop the head of the queue; fails when empty. -/
def Victim (r : LRUReplacer) : Option Nat × LRUReplacer :=
  match r.list with
  | [] => (none, r)
  | f :: rest => (some f, { r with list := rest, cur_size := decU r.cur_size })

/-- `LRUReplacer::Pin`: erase the first occurrence of `f` (if any) and
decrement the counter; no-op when `f` is absent. -/
def Pin (r : LRUReplacer) (f : Nat) : LRUReplacer :=
  if r.list.contains f then { r with list := r.list.erase f, cur_size := decU r.cur_size }
  else r

/-- `LRUReplacer::Unpin`: no-op when `f` is already present; otherwise pop the
head when the list is at capacity, append `f` at the tail, and increment the
counter.  Note the source does not decrement `cur_size_` for the popped head. -/
def Unpin (r : LRUReplacer) (f : Nat) : LRUReplacer :=
  if r.list.contains f then r
  else
    let l := if r.num_pages ≤ r.list.length then r.list.tail else r.list
    { r with list := l ++ [f], cur_size := incU r.cur_size }

/-- `LRUReplacer::Access`: move `f` to the tail when present. -/
def Access (r : LRUReplacer) (f : Nat) : LRUReplacer :=
  if r.list.contains f then { r with list := r.list.erase f ++ [f] }
  else r

/-- `LRUReplacer::Size`: returns the counter `cur_size_`. -/
def Size (r : LRUReplacer) : Nat := r.cur_size

end LRUReplacer

/-! ## LRUKNode

Modelled from the spec: the class `LRUKNode` lives in the header
`buffer/lru_k_replacer.h`, which is not part of the given sources.  Per the
spec (section 3) a node holds a history of at most `k` timestamps and an
`is_evictable` flag; `is_old_cache` is true once the node has at least `k`
recorded accesses; `add_history` appends a timestamp, dropping the oldest
entry when the bound `k` is exceeded.  A freshly constructed node has an
empty history and is not evictable. -/

structure LRUKNode where
  k : Nat
  history : List Nat
  is_evictable : Bool
  deriving DecidableEq, Repr

/-- Modelled from the spec: `LRUKNode(frame_id, k)` constructor — empty
history, not evictable. -/
def LRUKNode.new (k : Nat) : LRUKNode := { k := k, history := [], is_evictable := false }

/-- Modelled from the spec: append a timestamp, capped at `k` entries with the
oldest dropped when full. -/
def LRUKNode.add_history (n : LRUKNode) (ts : Nat) : LRUKNode :=
  let h := n.history ++ [ts]
  { n with history := if n.k < h.length then h.tail else h }

/-- Modelled from the spec: true once the node has at least `k` recorded
accesses. -/
def LRUKNode.is_old_cache (n : LRUKNode) : Bool := n.k ≤ n.history.length

/-! ## LRUKReplacer (`src/buffer/lru_k_replacer.cpp`) -/

structure LRUKReplacer where
  num_frames : Nat
  k : Nat
  current_timestamp : Nat
  curr_size : Nat
  map : List (Nat × LRUKNode)
  new_cache_list : LRUReplacer
  old_cache_list : LRUReplacer
  deriving DecidableEq, Repr

/-- `LRUKReplacer` constructor: two fresh inner `LRUReplacer`s of capacity
`num_frames`, empty map, zero counters. -/
def newLRUKReplacer (n k : Nat) : LRUKReplacer :=
  { num_frames := n, k := k, current_timestamp := 0, curr_size := 0, map := [],
    new_cache_list := newLRUReplacer n, old_cache_list := newLRUReplacer n }

namespace LRUKReplacer

/-- `LRUKReplacer::Size`: returns `curr_size_`. -/
def Size (r : LRUKReplacer) : Nat := r.curr_size

/-- The old-queue half of `LRUKReplacer::Evict` (lines 44-52): consulted after
the new queue yields no victim. -/
def evictOld (r : LRUKReplacer) : Option Nat × LRUKReplacer :=
  if LRUReplacer.Size r.old_cache_list ≠ 0 then
    match LRUReplacer.Victim r.old_cache_list with
    | (some f, oc) =>
        (some f, { r with old_cache_list := oc, curr_size := decU r.curr_size,
                          map := alistErase r.map f })
    | (none, oc) => (none, { r with old_cache_list := oc })
  else (none, r)

/-- `LRUKReplacer::Evict`: fail when both inner sizes sum to zero; otherwise
try the new queue first, then the old queue; on success decrement `curr_size_`
and drop the node. -/
def Evict (r : LRUKReplacer) : Option Nat × LRUKReplacer :=
  if (LRUReplacer.Size r.old_cache_list + LRUReplacer.Size r.new_cache_list) % u64 = 0 then
    (none, r)
  else
    if LRUReplacer.Size r.new_cache_list ≠ 0 then
      match LRUReplacer.Victim r.new_cache_list with
      | (some f, nc) =>
          (some f, { r with new_cache_list := nc, curr_size := decU r.curr_size,
                            map := alistErase r.map f })
      | (none, nc) => evictOld { r with new_cache_list := nc }
    else evictOld r

/-- `LRUKReplacer::RecordAccess`: bump the timestamp, create the node if
unknown, append to its history; for evictable nodes also refresh or migrate
the queue position (new queue to old queue on graduation). -/
def RecordAccess (r : LRUKReplacer) (f : Nat) : LRUKReplacer :=
  match alistFind r.map f with
  | none =>
      let ts := incU r.current_timestamp
      { r with current_timestamp := ts,
               map := alistInsert r.map f ((LRUKNode.new r.k).add_history ts) }
  | some node =>
      let ts := incU r.current_timestamp
      if node.is_evictable then
        if node.is_old_cache then
          { r with current_timestamp := ts,
                   map := alistInsert r.map f (node.add_history ts),
                   old_cache_list := LRUReplacer.Access r.old_cache_list f }
        else
          let node2 := node.add_history ts
          if node2.is_old_cache then
            { r with current_timestamp := ts,
                     map := alistInsert r.map f node2,
                     new_cache_list := LRUReplacer.Pin r.new_cache_list f,
                     old_cache_list := LRUReplacer.Unpin r.old_cache_list f }
          else
            { r with current_timestamp := ts,
                     map := alistInsert r.map f node2,
                     new_cache_list := LRUReplacer.Access r.new_cache_list f }
      else
        { r with current_timestamp := ts,
                 map := alistInsert r.map f (node.add_history ts) }

/-- The capacity-enforcement victim selection shared by both `SetEvictable`
branches (lines 92-101 and 121-130): take a victim from the new queue when its
size counter is positive, otherwise from the old queue; `none` models the
thrown `ExecutionException` when `Victim` fails.  Returns the victim and the
updated queues. -/
def capacityVictim (r : LRUKReplacer) : Option (Nat × LRUReplacer × LRUReplacer) :=
  if 0 < LRUReplacer.Size r.new_cache_list then
    match LRUReplacer.Victim r.new_cache_list with
    | (some tmp, nc) => some (tmp, nc, r.old_cache_list)
    | (none, _) => none
  else
    match LRUReplacer.Victim r.old_cache_list with
    | (some tmp, oc) => some (tmp, r.new_cache_list, oc)
    | (none, _) => none

/-- `LRUKReplacer::SetEvictable`.  Note two behaviours of the source carried
over faithfully: the unknown-frame `set_evictable = true` branch creates the
node *without* setting its `is_evictable_` flag (lines 110-112), and the
`set_evictable = false` branch erases the node from the map regardless of its
previous flag (lines 145-155).  `none` models a thrown `ExecutionException`
(or the null dereference after the capacity victim erased the frame's own
node). -/
def SetEvictable (r : LRUKReplacer) (f : Nat) (se : Bool) : Option LRUKReplacer :=
  match alistFind r.map f with
  | none =>
      if se then
        if r.num_frames ≤ r.curr_size then
          match capacityVictim r with
          | none => none
          | some (tmp, nc, oc) =>
              match alistFind r.map tmp with
              | none => none
              | some _ =>
                  some { r with map := alistInsert (alistErase r.map tmp) f (LRUKNode.new r.k),
                                new_cache_list := LRUReplacer.Unpin nc f,
                                old_cache_list := oc }
        else
          some { r with curr_size := incU r.curr_size,
                        map := alistInsert r.map f (LRUKNode.new r.k),
                        new_cache_list := LRUReplacer.Unpin r.new_cache_list f }
      else some r
  | some node =>
      if se then
        if node.is_evictable then some r
        else
          let node2 := { node with is_evictable := true }
          let m1 := alistInsert r.map f node2
          if r.num_frames ≤ r.curr_size then
            match capacityVictim r with
            | none => none
            | some (tmp, nc, oc) =>
                match alistFind m1 tmp with
                | none => none
                | some _ =>
                    let m2 := alistErase m1 tmp
                    match alistFind m2 f with
                    | none => none
                    | some n2 =>
                        if n2.is_old_cache then
                          some { r with map := m2, new_cache_list := nc,
                                        old_cache_list := LRUReplacer.Unpin oc f }
                        else
                          some { r with map := m2, old_cache_list := oc,
                                        new_cache_list := LRUReplacer.Unpin nc f }
          else
            if node2.is_old_cache then
              some { r with curr_size := incU r.curr_size, map := m1,
                            old_cache_list := LRUReplacer.Unpin r.old_cache_list f }
            else
              some { r with curr_size := incU r.curr_size, map := m1,
                            new_cache_list := LRUReplacer.Unpin r.new_cache_list f }
      else
        some (if node.is_old_cache then
                { r with old_cache_list := LRUReplacer.Pin r.old_cache_list f,
                         curr_size := if node.is_evictable then decU r.curr_size else r.curr_size,
                         map := alistErase r.map f }
              else
                { r with new_cache_list := LRUReplacer.Pin r.new_cache_list f,
                         curr_size := if node.is_evictable then decU r.curr_size else r.curr_size,
                         map := alistErase r.map f })

/-- `LRUKReplacer::Remove`: no-op when the frame is unknown *or its node is
not flagged evictable* (lines 163-168); otherwise remove it from its queue,
drop the node, and decrement `curr_size_`. -/
def Remove (r : LRUKReplacer) (f : Nat) : LRUKReplacer :=
  match alistFind r.map f with
  | none => r
  | some node =>
      if node.is_evictable = false then r
      else
        if node.is_old_cache then
          { r with old_cache_list := LRUReplacer.Pin r.old_cache_list f,
                   map := alistErase r.map f, curr_size := decU r.curr_size }
        else
          { r with new_cache_list := LRUReplacer.Pin r.new_cache_list f,
                   map := alistErase r.map f, curr_size := decU r.curr_size }

end LRUKReplacer

/-! ## BufferPoolManager (`src/buffer/buffer_pool_manager.cpp`) -/

/-- `INVALID_PAGE_ID` sentinel of the source. -/
def INVALID_PAGE_ID : Int := -1

/-- One slot of the frame array (`Page` object of the source): page id,
pin count, dirty flag and the page-size data buffer (a list of bytes). -/
structure Frame where
  page_id : Int
  pin_count : Int
  is_dirty : Bool
  data : List Nat
  deriving DecidableEq, Repr

/-- A fresh frame as produced by `new Page[pool_size]`: invalid page id,
pin count 0, clean, zeroed buffer of `page_size` bytes. -/
def Frame.fresh (page_size : Nat) : Frame :=
  { page_id := INVALID_PAGE_ID, pin_count := 0, is_dirty := false,
    data := List.replicate page_size 0 }

/-- Fallback frame for out-of-range indexing (never reached on the states the
theorems use; the source indexes `pages_[frame_id]` unchecked). -/
def defaultFrame : Frame := Frame.fresh 0

/-- The number of bytes of `l` before its first zero byte: the value of
`strlen(data)` on the buffer.  (If the buffer holds no zero byte the real
`strlen` would run past its end — undefined behaviour — which we model as
stopping at the end.) -/
def strlenB : List Nat → Nat
  | [] => 0
  | b :: rest => if b = 0 then 0 else strlenB rest + 1

/-- `memset(data, 0, strlen(data))`: zero only the bytes before the first zero
byte, leaving the rest of the buffer untouched. -/
def memsetStrlen (l : List Nat) : List Nat :=
  List.replicate (strlenB l) 0 ++ l.drop (strlenB l)

/-- A disk call made by the manager, recorded in the returned trace. -/
inductive DiskOp where
  | read : Int → DiskOp
  | write : Int → DiskOp
  deriving DecidableEq, Repr

/-- State of the `BufferPoolManager`: frame array, page table, free list,
monotonic page-id allocator and the LRU-K replacer. -/
structure BufferPoolManager where
  pool_size : Nat
  pages : List Frame
  page_table : List (Int × Nat)
  free_list : List Nat
  next_page_id : Int
  replacer : LRUKReplacer
  deriving DecidableEq, Repr

/-- The `BufferPoolManager` constructor: all frames fresh and on the free
list, empty page table, replacer of capacity `pool_size`. -/
def newBufferPoolManager (pool_size page_size k : Nat) : BufferPoolManager :=
  { pool_size := pool_size,
    pages := List.replicate pool_size (Frame.fresh page_size),
    page_table := [], free_list := List.range pool_size, next_page_id := 0,
    replacer := newLRUKReplacer pool_size k }

namespace BufferPoolManager

/-- `BufferPoolManager::NewPage`.  Result: `none` for a failed `assert` /
thrown exception; `some (none, st, tr)` for a null return (pool exhausted);
`some (some (page_id, frame_id), st, tr)` on success, with the disk trace
`tr`.  Mirrors the source: the free-list branch and the eviction branch both
stamp the frame, `memset` its buffer up to the first zero byte, record the
access and mark the frame non-evictable. -/
def NewPage (bpm : BufferPoolManager) :
    Option (Option (Int × Nat) × BufferPoolManager × List DiskOp) :=
  if bpm.free_list = [] ∧ LRUKReplacer.Size bpm.replacer = 0 then some (none, bpm, [])
  else
    match bpm.free_list with
    | fid :: rest =>
        let pid := bpm.next_page_id
        let pg := bpm.pages.getD fid defaultFrame
        let pg2 := { pg with page_id := pid, is_dirty := false, pin_count := 1,
                             data := memsetStrlen pg.data }
        let r1 := LRUKReplacer.RecordAccess bpm.replacer fid
        match LRUKReplacer.SetEvictable r1 fid false with
        | none => none
        | some r2 =>
            some (some (pid, fid),
              { bpm with free_list := rest, next_page_id := pid + 1,
                         page_table := alistInsert bpm.page_table pid fid,
                         pages := bpm.pages.set fid pg2, replacer := r2 }, [])
    | [] =>
        if LRUKReplacer.Size bpm.replacer ≠ 0 then
          let pid := bpm.next_page_id
          match LRUKReplacer.Evict bpm.replacer with
          | (some fid, r1) =>
              let old := bpm.pages.getD fid defaultFrame
              if old.pin_count ≠ 0 then none
              else
                let tr := if old.is_dirty then [DiskOp.write old.page_id] else []
                match alistFind bpm.page_table old.page_id with
                | none => none
                | some _ =>
                    let pg2 := { old with is_dirty := false, page_id := pid, pin_count := 1,
                                          data := memsetStrlen old.data }
                    let r2 := LRUKReplacer.RecordAccess r1 fid
                    match LRUKReplacer.SetEvictable r2 fid false with
                    | none => none
                    | some r3 =>
                        some (some (pid, fid),
                          { bpm with next_page_id := pid + 1,
                                     page_table := alistInsert (alistErase bpm.page_table old.page_id) pid fid,
                                     pages := bpm.pages.set fid pg2, replacer := r3 }, tr)
          | (none, _) => none
        else some (none, bpm, [])

/-- `BufferPoolManager::FetchPage`.  `disk` gives the on-disk contents of each
page; `DiskManager::ReadPage` overwrites the whole frame buffer with them.
On a hit: record the access, mark non-evictable, bump the pin count.  On a
miss with a free frame: populate from disk — the source performs *no*
replacer calls on this path (lines 105-115).  Otherwise evict as in
`NewPage`, then read from disk. -/
def FetchPage (bpm : BufferPoolManager) (disk : Int → List Nat) (pid : Int) :
    Option (Option Nat × BufferPoolManager × List DiskOp) :=
  match alistFind bpm.page_table pid with
  | some fid =>
      let r1 := LRUKReplacer.RecordAccess bpm.replacer fid
      match LRUKReplacer.SetEvictable r1 fid false with
      | none => none
      | some r2 =>
          let pg := bpm.pages.getD fid defaultFrame
          some (some fid,
            { bpm with replacer := r2,
                       pages := bpm.pages.set fid { pg with pin_count := pg.pin_count + 1 } }, [])
  | none =>
      match bpm.free_list with
      | fid :: rest =>
          let pg := bpm.pages.getD fid defaultFrame
          let pg2 := { pg with page_id := pid, is_dirty := false, pin_count := 1,
                               data := disk pid }
          some (some fid,
            { bpm with free_list := rest,
                       page_table := alistInsert bpm.page_table pid fid,
                       pages := bpm.pages.set fid pg2 }, [DiskOp.read pid])
      | [] =>
          if LRUKReplacer.Size bpm.replacer ≠ 0 then
            match LRUKReplacer.Evict bpm.replacer with
            | (some fid, r1) =>
                let old := bpm.pages.getD fid defaultFrame
                let tr := if old.is_dirty then [DiskOp.write old.page_id] else []
                match alistFind bpm.page_table old.page_id with
                | none => none
                | some _ =>
                    let pg2 := { old with is_dirty := false, page_id := pid, pin_count := 1,
                                          data := disk pid }
                    let r2 := LRUKReplacer.RecordAccess r1 fid
                    match LRUKReplacer.SetEvictable r2 fid false with
                    | none => none
                    | some r3 =>
                        some (some fid,
                          { bpm with page_table := alistInsert (alistErase bpm.page_table old.page_id) pid fid,
                                     pages := bpm.pages.set fid pg2, replacer := r3 },
                          tr ++ [DiskOp.read pid])
            | (none, r1) => some (none, { bpm with replacer := r1 }, [])
          else some (none, bpm, [])

/-- `BufferPoolManager::UnpinPage`: false when the page is not resident or its
pin count is already non-positive; otherwise decrement the pin count and
*assign* the dirty flag (`is_dirty_ = is_dirty`, line 157 of the source);
when the pin count reaches zero, mark the frame evictable. -/
def UnpinPage (bpm : BufferPoolManager) (pid : Int) (is_dirty : Bool) :
    Option (Bool × BufferPoolManager) :=
  match alistFind bpm.page_table pid with
  | none => some (false, bpm)
  | some fid =>
      let pg := bpm.pages.getD fid defaultFrame
      if pg.pin_count ≤ 0 then some (false, bpm)
      else
        let pg2 : Frame := { pg with pin_count := pg.pin_count - 1, is_dirty := is_dirty }
        let bpm2 : BufferPoolManager := { bpm with pages := bpm.pages.set fid pg2 }
        if pg2.pin_count ≤ 0 then
          match LRUKReplacer.SetEvictable bpm2.replacer fid true with
          | none => none
          | some r2 => some (true, { bpm2 with replacer := r2 })
        else some (true, bpm2)

/-- `BufferPoolManager::FlushPage`: false when not resident; otherwise write
the frame through the disk manager unconditionally and clear the dirty bit. -/
def FlushPage (bpm : BufferPoolManager) (pid : Int) :
    Bool × BufferPoolManager × List DiskOp :=
  match alistFind bpm.page_table pid with
  | none => (false, bpm, [])
  | some fid =>
      let pg := bpm.pages.getD fid defaultFrame
      (true, { bpm with pages := bpm.pages.set fid { pg with is_dirty := false } },
       [DiskOp.write pg.page_id])

/-- `BufferPoolManager::DeletePage`: true when not resident; false when the
pin count is positive (state untouched); otherwise reset the frame (with the
`memset`-up-to-first-zero-byte of the source), remove the page-table entry,
push the frame on the free list, and call `LRUKReplacer::Remove`.  No disk
write ever happens here. -/
def DeletePage (bpm : BufferPoolManager) (pid : Int) :
    Bool × BufferPoolManager × List DiskOp :=
  match alistFind bpm.page_table pid with
  | none => (true, bpm, [])
  | some fid =>
      let pg := bpm.pages.getD fid defaultFrame
      if 0 < pg.pin_count then (false, bpm, [])
      else
        let pg2 := { pg with pin_count := 0, is_dirty := false, page_id := INVALID_PAGE_ID,
                             data := memsetStrlen pg.data }
        (true,
         { bpm with pages := bpm.pages.set fid pg2,
                    page_table := alistErase bpm.page_table pid,
                    free_list := bpm.free_list ++ [fid],
                    replacer := LRUKReplacer.Remove bpm.replacer fid }, [])

end BufferPoolManager

/-! ## Page guards (`src/storage/page/page_guard.cpp`)

A guard holds a non-owning manager pointer (`bpm_`, modelled by the flag
`bpm_valid`), a `Page*` (modelled by the frame index, `none` = null), and its
own dirty flag.  The per-frame reader/writer latch is outside the modelled
state; `RUnlatch`/`WUnlatch` are therefore no-ops here. -/

structure BasicPageGuard where
  bpm_valid : Bool
  page : Option Nat
  is_dirty : Bool
  deriving DecidableEq, Repr

namespace BasicPageGuard

/-- `BasicPageGuard::Drop` (lines 14-19): return early when either pointer is
null; otherwise unpin with the stored dirty flag.  The source does *not*
reset `bpm_` or `page_`, so the returned guard keeps its pointers.
`page_->GetPageId()` reads the frame's current page id from the manager. -/
def Drop (g : BasicPageGuard) (st : BufferPoolManager) :
    Option (BasicPageGuard × BufferPoolManager) :=
  match g.page with
  | none => some (g, st)
  | some fid =>
      if g.bpm_valid then
        match BufferPoolManager.UnpinPage st ((st.pages.getD fid defaultFrame).page_id) g.is_dirty with
        | none => none
        | some (_, st2) => some (g, st2)
      else some (g, st)

/-- `BasicPageGuard::operator=` (lines 21-28): overwrite this guard's fields
with the source's and null the source — *without* releasing the pin this
guard previously held; the manager state is untouched.  Result:
(new LHS, moved-from RHS, manager state). -/
def moveAssign (st : BufferPoolManager) (_g1 g2 : BasicPageGuard) :
    BasicPageGuard × BasicPageGuard × BufferPoolManager :=
  ({ bpm_valid := g2.bpm_valid, page := g2.page, is_dirty := g2.is_dirty },
   { g2 with bpm_valid := false, page := none }, st)

end BasicPageGuard

/-- `ReadPageGuard` wraps a `BasicPageGuard` (plus a held read latch, outside
the modelled state). -/
structure ReadPageGuard where
  guard : BasicPageGuard
  deriving DecidableEq, Repr

namespace ReadPageGuard

/-- `ReadPageGuard::Drop` (lines 43-49): unpin with the stored dirty flag and
release the read latch; like the basic guard, the pointers are not reset. -/
def Drop (g : ReadPageGuard) (st : BufferPoolManager) :
    Option (ReadPageGuard × BufferPoolManager) :=
  match BasicPageGuard.Drop g.guard st with
  | none => none
  | some (b, st2) => some ({ guard := b }, st2)

/-- `ReadPageGuard::operator=` (lines 38-41): delegates to
`BasicPageGuard::operator=` on the wrapped guard, so it too releases
nothing. -/
def moveAssign (st : BufferPoolManager) (g1 g2 : ReadPageGuard) :
    ReadPageGuard × ReadPageGuard × BufferPoolManager :=
  let (b1, b2, st2) := BasicPageGuard.moveAssign st g1.guard g2.guard
  ({ guard := b1 }, { guard := b2 }, st2)

end ReadPageGuard

/-- `WritePageGuard` wraps a `BasicPageGuard` (plus a held write latch). -/
structure WritePageGuard where
  guard : BasicPageGuard
  deriving DecidableEq, Repr

/-- Outcome of a guard constructor that dereferences the `Page*` returned by
`FetchPage` with no null check: either a guard, or a null-pointer
dereference (`page->RLatch()` / `page->WLatch()` on a null `page`). -/
inductive DerefResult (α : Type) where
  | ok : α → DerefResult α
  | nullDeref : DerefResult α
  deriving DecidableEq, Repr

namespace BufferPoolManager

/-- `BufferPoolManager::FetchPageRead` (lines 218-223): calls `FetchPage` and
immediately invokes `page->RLatch()` with no null check; a null page is a
null dereference.  The outer `Option` propagates exceptions from
`FetchPage`. -/
def FetchPageRead (bpm : BufferPoolManager) (disk : Int → List Nat) (pid : Int) :
    Option (DerefResult (ReadPageGuard × BufferPoolManager × List DiskOp)) :=
  match FetchPage bpm disk pid with
  | none => none
  | some (none, _, _) => some DerefResult.nullDeref
  | some (some fid, st, tr) =>
      some (DerefResult.ok
        ({ guard := { bpm_valid := true, page := some fid, is_dirty := false } }, st, tr))

/-- `BufferPoolManager::FetchPageWrite` (lines 225-230): same as
`FetchPageRead` with `page->WLatch()`. -/
def FetchPageWrite (bpm : BufferPoolManager) (disk : Int → List Nat) (pid : Int) :
    Option (DerefResult (WritePageGuard × BufferPoolManager × List DiskOp)) :=
  match FetchPage bpm disk pid with
  | none => none
  | some (none, _, _) => some DerefResult.nullDeref
  | some (some fid, st, tr) =>
      some (DerefResult.ok
        ({ guard := { bpm_valid := true, page := some fid, is_dirty := false } }, st, tr))

end BufferPoolManager

/-! ## Latch instrumentation

The manager's `latch_` is a non-recursive `std::mutex`.  The `L`-suffixed
functions make each `std::lock_guard<std::mutex> lg(latch_)` of the source
explicit: `held` says whether the calling context already holds `latch_`, and
acquiring it again is a self-deadlock. -/

/-- Result of running an operation under the latch discipline. -/
inductive LatchRes (α : Type) where
  | ok : α → LatchRes α
  | deadlock : LatchRes α
  deriving DecidableEq, Repr

namespace BufferPoolManager

/-- `FetchPage` with its latch acquisition (line 94) explicit. -/
def FetchPageL (held : Bool) (bpm : BufferPoolManager) (disk : Int → List Nat) (pid : Int) :
    LatchRes (Option (Option Nat × BufferPoolManager × List DiskOp)) :=
  if held then LatchRes.deadlock else LatchRes.ok (FetchPage bpm disk pid)

/-- `FlushPage` with its latch acquisition (line 165) explicit. -/
def FlushPageL (held : Bool) (bpm : BufferPoolManager) (pid : Int) :
    LatchRes (Bool × BufferPoolManager × List DiskOp) :=
  if held then LatchRes.deadlock else LatchRes.ok (FlushPage bpm pid)

/-- The loop body of `FlushAllPages` (lines 180-183): call `FlushPage` on
every page-table key, while `latch_` is already held. -/
def flushLoop (bpm : BufferPoolManager) : List Int → LatchRes (BufferPoolManager × List DiskOp)
  | [] => LatchRes.ok (bpm, [])
  | pid :: rest =>
      match FlushPageL true bpm pid with
      | LatchRes.deadlock => LatchRes.deadlock
      | LatchRes.ok (_, st2, tr) =>
          match flushLoop st2 rest with
          | LatchRes.deadlock => LatchRes.deadlock
          | LatchRes.ok (st3, tr2) => LatchRes.ok (st3, tr ++ tr2)

/-- `BufferPoolManager::FlushAllPages` (lines 178-184): acquires `latch_`,
then calls `FlushPage` — which acquires `latch_` again — for every page-table
entry. -/
def FlushAllPagesL (held : Bool) (bpm : BufferPoolManager) :
    LatchRes (BufferPoolManager × List DiskOp) :=
  if held then LatchRes.deadlock
  else flushLoop bpm (bpm.page_table.map (fun e => e.1))

/-- `BufferPoolManager::FetchPageBasic` (lines 213-216): acquires `latch_`,
then calls `FetchPage` — which acquires `latch_` again. -/
def FetchPageBasicL (held : Bool) (bpm : BufferPoolManager) (disk : Int → List Nat) (pid : Int) :
    LatchRes (Option (BasicPageGuard × BufferPoolManager × List DiskOp)) :=
  if held then LatchRes.deadlock
  else
    match FetchPageL true bpm disk pid with
    | LatchRes.deadlock => LatchRes.deadlock
    | LatchRes.ok none => LatchRes.ok none
    | LatchRes.ok (some (p, st, tr)) =>
        LatchRes.ok (some ({ bpm_valid := true, page := p, is_dirty := false }, st, tr))

end BufferPoolManager

/-! ## Concrete scenario states

Post-state extractors for running concrete operation sequences (when an
operation fails, the pre-state is kept — all scenarios below stay on the
successful paths), a zero disk and a disk holding a non-zero byte, and the
states the claims are evaluated on. -/

/-- Post-state of `NewPage` (pre-state on failure). -/
def stepNew (st : BufferPoolManager) : BufferPoolManager :=
  match BufferPoolManager.NewPage st with
  | some (_, s, _) => s
  | none => st

/-- Post-state of `FetchPage` (pre-state on failure). -/
def stepFetch (disk : Int → List Nat) (st : BufferPoolManager) (pid : Int) : BufferPoolManager :=
  match BufferPoolManager.FetchPage st disk pid with
  | some (_, s, _) => s
  | none => st

/-- Post-state of `UnpinPage` (pre-state on failure). -/
def stepUnpin (st : BufferPoolManager) (pid : Int) (d : Bool) : BufferPoolManager :=
  match BufferPoolManager.UnpinPage st pid d with
  | some (_, s) => s
  | none => st

/-- Post-state of `BasicPageGuard.Drop` (pre-state on failure). -/
def stepDropB (g : BasicPageGuard) (st : BufferPoolManager) :
    BasicPageGuard × BufferPoolManager :=
  match BasicPageGuard.Drop g st with
  | some p => p
  | none => (g, st)

/-- Pin count of a frame. -/
def pinOf (st : BufferPoolManager) (fid : Nat) : Int := (st.pages.getD fid defaultFrame).pin_count

/-- Dirty flag of a frame. -/
def dirtyOf (st : BufferPoolManager) (fid : Nat) : Bool := (st.pages.getD fid defaultFrame).is_dirty

/-- Data buffer of a frame. -/
def dataOf (st : BufferPoolManager) (fid : Nat) : List Nat := (st.pages.getD fid defaultFrame).data

/-- A disk whose every page is two zero bytes (page size 2 throughout the
scenarios). -/
def diskZ : Int → List Nat := fun _ => [0, 0]

/-- A disk whose every page is the bytes `[0, 1]` — a page whose first byte
is zero and whose second byte is not. -/
def disk01 : Int → List Nat := fun _ => [0, 1]

/-- Pool of one frame with its only page created and still pinned: the free
list is empty and nothing is evictable, so the pool is exhausted; the page
table is non-empty. -/
def stPinnedFull : BufferPoolManager := stepNew (newBufferPoolManager 1 2 2)

/-- Pool of two frames after `NewPage` (page 0 pinned once). -/
def stC1a : BufferPoolManager := stepNew (newBufferPoolManager 2 2 2)

/-- ... after `UnpinPage(0, true)`: frame 0 is dirty and evictable. -/
def stC1b : BufferPoolManager := stepUnpin stC1a 0 true

/-- ... after `FetchPage(0)` (a hit): frame 0 pinned again, still dirty. -/
def stC1c : BufferPoolManager := stepFetch diskZ stC1b 0

/-- ... after `UnpinPage(0, false)`: the source assigns the dirty flag. -/
def stC1d : BufferPoolManager := stepUnpin stC1c 0 false

/-- Pool of two frames with page 0 pinned twice (`NewPage` then a
`FetchPage` hit). -/
def stPin2 : BufferPoolManager := stepFetch diskZ (stepNew (newBufferPoolManager 2 2 2)) 0

/-- A live guard on page 0 (as produced by the guard constructors). -/
def guard0 : BasicPageGuard := { bpm_valid := true, page := some 0, is_dirty := false }

/-- Pool of five frames (as in the repository's `ReadTset`) with page 0
pinned three times: `NewPage` plus two `FetchPage` hits. -/
def stPin3 : BufferPoolManager :=
  stepFetch diskZ (stepFetch diskZ (stepNew (newBufferPoolManager 5 2 2)) 0) 0

/-- Two read guards on page 0 of `stPin3`. -/
def rguard0 : ReadPageGuard := { guard := guard0 }

/-- Pool of one frame after `NewPage`; `UnpinPage(0, false)`: page 0
resident, unpinned, evictable. -/
def stC6 : BufferPoolManager := stepUnpin (stepNew (newBufferPoolManager 1 2 2)) 0 false

/-- Pool of one frame after fetching page 5 from `disk01`: frame 0 holds the
bytes `[0, 1]`. -/
def stC7a : BufferPoolManager := stepFetch disk01 (newBufferPoolManager 1 2 2) 5

/-- ... after `UnpinPage(5, false)`. -/
def stC7b : BufferPoolManager := stepUnpin stC7a 5 false

/-- ... after `DeletePage(5)`: the frame is back on the free list. -/
def stC7c : BufferPoolManager := (BufferPoolManager.DeletePage stC7b 5).2.1

/-- ... after `NewPage`: the recycled frame is handed out again. -/
def stC7d : BufferPoolManager := stepNew stC7c

/-- A replacer state with both queues non-empty, for the eviction-priority
witness: frame 3 is the least recently used of the new queue, frame 5 of the
old queue. -/
def rBoth : LRUKReplacer :=
  { num_frames := 4, k := 2, current_timestamp := 9, curr_size := 3,
    map := [], new_cache_list := { num_pages := 4, list := [3, 4], cur_size := 2 },
    old_cache_list := { num_pages := 4, list := [5], cur_size := 1 } }

/-! ## Helper lemmas -/

/-- `SetEvictable(f, false)` never throws: both the unknown-frame branch and
the known-frame branch of the source return normally. -/
theorem setEvictable_false_some (r : LRUKReplacer) (f : Nat) :
    ∃ r2, LRUKReplacer.SetEvictable r f false = some r2 := by
  unfold LRUKReplacer.SetEvictable
  cases h : alistFind r.map f with
  | none => simp [h]
  | some node => simp [h]

/-- `evictOld` returns the head of the old queue whenever the old queue's
length is bounded by its size counter (and `none` exactly when the old list
is empty). -/
theorem evictOld_fst (s : LRUKReplacer)
    (h : s.old_cache_list.list.length ≤ s.old_cache_list.cur_size) :
    (LRUKReplacer.evictOld s).1 = s.old_cache_list.list.head? := by
  cases hol : s.old_cache_list.list with
  | nil =>
      by_cases hso : s.old_cache_list.cur_size = 0
      · simp [LRUKReplacer.evictOld, LRUReplacer.Size, hso, hol]
      · simp [LRUKReplacer.evictOld, LRUReplacer.Size, LRUReplacer.Victim, hol, hso]
  | cons b u =>
      have hso : s.old_cache_list.cur_size ≠ 0 := by
        rw [hol] at h; simp at h; omega
      simp [LRUKReplacer.evictOld, LRUReplacer.Size, LRUReplacer.Victim, hol, hso]

/-! ## Claim theorems -/

/-- Claim C5: in every replacer state whose queue-length/size counters are
consistent (`length ≤ cur_size`, true of all reachable states, with the
counters in `size_t` range), `Evict` returns the head — the least recently
used member — of the new queue whenever the new queue is non-empty (in
particular whenever both queues are non-empty), and the head of the old
queue when the new queue is empty. -/
theorem lrukReplacer_evict_prefers_new_queue (r : LRUKReplacer)
    (hn : r.new_cache_list.list.length ≤ r.new_cache_list.cur_size)
    (ho : r.old_cache_list.list.length ≤ r.old_cache_list.cur_size)
    (hb : r.old_cache_list.cur_size + r.new_cache_list.cur_size < u64) :
    (r.new_cache_list.list ≠ [] →
        (LRUKReplacer.Evict r).1 = r.new_cache_list.list.head?) ∧
    (r.new_cache_list.list = [] →
        (LRUKReplacer.Evict r).1 = r.old_cache_list.list.head?) := by
  constructor
  · intro hne
    cases hl : r.new_cache_list.list with
    | nil => exact absurd hl hne
    | cons a t =>
        have hszn : r.new_cache_list.cur_size ≠ 0 := by
          rw [hl] at hn; simp at hn; omega
        have hsum : (r.old_cache_list.cur_size + r.new_cache_list.cur_size) % u64 ≠ 0 := by
          rw [Nat.mod_eq_of_lt hb]; omega
        simp [LRUKReplacer.Evict, LRUReplacer.Size, LRUReplacer.Victim, hl, hsum, hszn]
  · intro hnil
    by_cases hsum : (r.old_cache_list.cur_size + r.new_cache_list.cur_size) % u64 = 0
    · have hz : r.old_cache_list.cur_size = 0 := by
        rw [Nat.mod_eq_of_lt hb] at hsum; omega
      have hol : r.old_cache_list.list = [] := by
        have := ho; rw [hz] at this
        exact List.eq_nil_of_length_eq_zero (Nat.le_zero.mp this)
      simp [LRUKReplacer.Evict, LRUReplacer.Size, hsum, hol]
    · by_cases hsn : r.new_cache_list.cur_size = 0
      · have h1 := evictOld_fst r ho
        have hsum2 : r.old_cache_list.cur_size % u64 ≠ 0 := by
          rw [hsn, Nat.add_zero] at hsum; exact hsum
        simp [LRUKReplacer.Evict, LRUReplacer.Size, hsum2, hsn, h1]
      · have h1 := evictOld_fst r ho
        simp [LRUKReplacer.Evict, LRUReplacer.Size, LRUReplacer.Victim, hnil, hsum, hsn]
        exact h1

/-- Witness for C5: in the concrete state `rBoth`, whose new queue holds
`[3, 4]` and old queue `[5]`, `Evict` returns frame 3. -/
theorem lrukReplacer_evict_prefers_new_queue_witness :
    rBoth.new_cache_list.list ≠ [] ∧ rBoth.old_cache_list.list ≠ [] ∧
    (LRUKReplacer.Evict rBoth).1 = some 3 := by
  refine ⟨by decide, by decide, ?_⟩
  have h := (lrukReplacer_evict_prefers_new_queue rBoth (by decide) (by decide)
    (by decide)).1 (by decide)
  exact h.trans rfl

/-- Claim C8: `FetchPageRead` / `FetchPageWrite` dereference the `Page*`
returned by `FetchPage` with no null check.  Whenever `FetchPage` succeeds
(returns a non-null page) they return a guard; whenever it returns null they
perform a null dereference.  `FetchPage` does succeed when the page is
resident or when the free list is non-empty; and on the pool-exhausted state
`stPinnedFull` the call dereferences null. -/
theorem fetchPageRead_write_null_safety (bpm : BufferPoolManager)
    (disk : Int → List Nat) (pid : Int) :
    (∀ fid st tr, BufferPoolManager.FetchPage bpm disk pid = some (some fid, st, tr) →
        BufferPoolManager.FetchPageRead bpm disk pid =
          some (DerefResult.ok
            ({ guard := { bpm_valid := true, page := some fid, is_dirty := false } }, st, tr)) ∧
        BufferPoolManager.FetchPageWrite bpm disk pid =
          some (DerefResult.ok
            ({ guard := { bpm_valid := true, page := some fid, is_dirty := false } }, st, tr))) ∧
    (∀ st tr, BufferPoolManager.FetchPage bpm disk pid = some (none, st, tr) →
        BufferPoolManager.FetchPageRead bpm disk pid = some DerefResult.nullDeref ∧
        BufferPoolManager.FetchPageWrite bpm disk pid = some DerefResult.nullDeref) ∧
    (∀ fid, alistFind bpm.page_table pid = some fid →
        ∃ st tr, BufferPoolManager.FetchPage bpm disk pid = some (some fid, st, tr)) ∧
    (alistFind bpm.page_table pid = none → bpm.free_list ≠ [] →
        ∃ fid st tr, BufferPoolManager.FetchPage bpm disk pid = some (some fid, st, tr)) ∧
    BufferPoolManager.FetchPageRead stPinnedFull diskZ 1 = some DerefResult.nullDeref := by
  refine ⟨?_, ?_, ?_, ?_, by decide⟩
  · intro fid st tr h
    constructor
    · simp [BufferPoolManager.FetchPageRead, h]
    · simp [BufferPoolManager.FetchPageWrite, h]
  · intro st tr h
    constructor
    · simp [BufferPoolManager.FetchPageRead, h]
    · simp [BufferPoolManager.FetchPageWrite, h]
  · intro fid hfind
    obtain ⟨r2, hr2⟩ :=
      setEvictable_false_some (LRUKReplacer.RecordAccess bpm.replacer fid) fid
    unfold BufferPoolManager.FetchPage
    simp only [hfind, hr2]
    exact ⟨_, _, rfl⟩
  · intro hfind hfree
    cases hfl : bpm.free_list with
    | nil => exact absurd hfl hfree
    | cons f rest =>
        unfold BufferPoolManager.FetchPage
        simp only [hfind, hfl]
        exact ⟨f, _, _, rfl⟩

/-- Witness for C8: on a fresh pool of two frames, fetching non-resident
page 7 succeeds (free list non-empty), by the theorem's resident-or-free
conjunct. -/
theorem fetchPageRead_write_null_safety_witness :
    ∃ fid st tr, BufferPoolManager.FetchPage (newBufferPoolManager 2 2 2) diskZ 7 =
      some (some fid, st, tr) :=
  (fetchPageRead_write_null_safety (newBufferPoolManager 2 2 2) diskZ 7).2.2.2.1
    rfl (by decide)

/-- Claim C1: after `NewPage`, `UnpinPage(0, true)` and a `FetchPage(0)` hit,
frame 0 is pinned and dirty; the claim says `UnpinPage(0, false)` leaves it
dirty, but the source assigns the flag (`is_dirty_ = is_dirty`), so the frame
comes out clean. -/
theorem unpinPage_overwrites_dirty_flag :
    dirtyOf stC1c 0 = true ∧ pinOf stC1c 0 = 1 ∧
    BufferPoolManager.UnpinPage stC1c 0 false = some (true, stC1d) ∧
    dirtyOf stC1d 0 = false := by decide

/-- Claim C2: with frame 0 pinned twice and a live guard on it, the first
`Drop` lowers the pin count to 1 and returns the guard with its pointers
intact, so a second `Drop` on the returned guard unpins again, down to 0 —
two `Drop`s do not have the effect of one. -/
theorem basicPageGuard_drop_not_idempotent :
    pinOf stPin2 0 = 2 ∧
    stepDropB guard0 stPin2 = (guard0, (stepDropB guard0 stPin2).2) ∧
    pinOf (stepDropB guard0 stPin2).2 0 = 1 ∧
    pinOf (stepDropB guard0 (stepDropB guard0 stPin2).2).2 0 = 0 := by decide

/-- Claim C3: with page 0 pinned three times and two live read guards on it,
`ReadPageGuard::operator=` leaves the manager state — and hence the pin
count 3 — unchanged (the claim expects a net release to 2), and the
moved-from guard subsequently releases nothing. -/
theorem readPageGuard_move_assign_releases_nothing :
    pinOf stPin3 0 = 3 ∧
    (ReadPageGuard.moveAssign stPin3 rguard0 rguard0).2.2 = stPin3 ∧
    (ReadPageGuard.moveAssign stPin3 rguard0 rguard0).2.1.guard.page = none ∧
    ReadPageGuard.Drop (ReadPageGuard.moveAssign stPin3 rguard0 rguard0).2.1 stPin3 =
      some ((ReadPageGuard.moveAssign stPin3 rguard0 rguard0).2.1, stPin3) := by decide

/-- Claim C4: fetching non-resident page 7 on a fresh pool of two frames
takes the free-list path and returns frame 0, but the replacer state is
exactly the initial one — no access is recorded for frame 0 and it is not
tracked at all. -/
theorem fetchPage_free_frame_skips_replacer :
    BufferPoolManager.FetchPage (newBufferPoolManager 2 2 2) diskZ 7 =
      some (some 0, stepFetch diskZ (newBufferPoolManager 2 2 2) 7, [DiskOp.read 7]) ∧
    (stepFetch diskZ (newBufferPoolManager 2 2 2) 7).replacer =
      (newBufferPoolManager 2 2 2).replacer ∧
    alistFind (stepFetch diskZ (newBufferPoolManager 2 2 2) 7).replacer.map 0 = none := by decide

/-- Claim C6: deleting unpinned resident page 0 returns true, removes the
page-table entry, pushes frame 0 on the free list and writes nothing to
disk — but the frame is *not* removed from the replacer: its node (created
non-evictable by `SetEvictable(true)`) makes `Remove` return early, so frame
0 stays in the map and in the new queue. -/
theorem deletePage_leaves_frame_in_replacer :
    pinOf stC6 0 = 0 ∧
    (BufferPoolManager.DeletePage stC6 0).1 = true ∧
    (BufferPoolManager.DeletePage stC6 0).2.2 = [] ∧
    alistFind (BufferPoolManager.DeletePage stC6 0).2.1.page_table 0 = none ∧
    (BufferPoolManager.DeletePage stC6 0).2.1.free_list = [0] ∧
    (alistFind (BufferPoolManager.DeletePage stC6 0).2.1.replacer.map 0).isSome = true ∧
    (BufferPoolManager.DeletePage stC6 0).2.1.replacer.new_cache_list.list = [0] := by decide

/-- Claim C7: frame 0 holds the bytes `[0, 1]` (page 5 fetched from disk);
`DeletePage` and the subsequent `NewPage` both `memset` only
`strlen(data) = 0` bytes, so the buffer stays `[0, 1]` instead of being
zeroed in full. -/
theorem zeroing_stops_at_first_zero_byte :
    dataOf stC7b 0 = [0, 1] ∧
    (BufferPoolManager.DeletePage stC7b 5).1 = true ∧
    dataOf stC7c 0 = [0, 1] ∧ dataOf stC7c 0 ≠ List.replicate 2 0 ∧
    pinOf stC7d 0 = 1 ∧ dataOf stC7d 0 = [0, 1] ∧
    dataOf stC7d 0 ≠ List.replicate 2 0 := by decide

/-- Claim C9: on a capacity-1 `LRUReplacer`, `Unpin(0)` then `Unpin(1)`
evicts the oldest entry to make room but still increments `cur_size_`:
`Size()` reports 2 while the queue holds the single entry `[1]`. -/
theorem lruReplacer_unpin_size_counter_desync :
    LRUReplacer.Size (LRUReplacer.Unpin (LRUReplacer.Unpin (newLRUReplacer 1) 0) 1) = 2 ∧
    (LRUReplacer.Unpin (LRUReplacer.Unpin (newLRUReplacer 1) 0) 1).list = [1] ∧
    (LRUReplacer.Unpin (LRUReplacer.Unpin (newLRUReplacer 1) 0) 1).list.length = 1 := by decide

/-- Claim C10: `FetchPageBasic` always acquires the non-recursive `latch_`
and then calls `FetchPage`, which acquires it again — a self-deadlock on
every call; `FlushAllPages` does the same through `FlushPage` as soon as the
page table is non-empty. -/
theorem fetchPageBasic_flushAllPages_self_deadlock :
    (∀ (held : Bool) (bpm : BufferPoolManager) (disk : Int → List Nat) (pid : Int),
        BufferPoolManager.FetchPageBasicL held bpm disk pid = LatchRes.deadlock) ∧
    (∀ bpm : BufferPoolManager, bpm.page_table ≠ [] →
        BufferPoolManager.FlushAllPagesL false bpm = LatchRes.deadlock) := by
  constructor
  · intro held bpm disk pid
    cases held <;>
      simp [BufferPoolManager.FetchPageBasicL, BufferPoolManager.FetchPageL]
  · intro bpm h
    cases hpt : bpm.page_table with
    | nil => exact absurd hpt h
    | cons e rest =>
        simp [BufferPoolManager.FlushAllPagesL, hpt, BufferPoolManager.flushLoop,
          BufferPoolManager.FlushPageL]

/-- Witness for C10: the state `stPinnedFull` has a non-empty page table, and
`FlushAllPages` on it self-deadlocks. -/
theorem fetchPageBasic_flushAllPages_self_deadlock_witness :
    stPinnedFull.page_table ≠ [] ∧
    BufferPoolManager.FlushAllPagesL false stPinnedFull = LatchRes.deadlock :=
  ⟨by decide, fetchPageBasic_flushAllPages_self_deadlock.2 stPinnedFull (by decide)⟩
